import Mathlib

/-
Shallow embedding of the gb-debug emulator core (Rust) in Lean 4.

Machine integers are modelled as `Nat` with explicit reductions
(`% 256`, `% 65536`) at the points where the Rust code wraps.
Fallible code (array indexing that can panic, `panic!`, `%` by zero)
is modelled with `Option`.

Source files embedded:
  src/mmu/timer.rs      (Timer)
  src/io/joypad.rs      (Joypad)
  src/ppu/mod.rs        (PPU: step / change_mode / registers / vram / oam)
  src/mbc/mbc0.rs, src/mbc/mbc1.rs, src/mbc/mbc3.rs, src/mbc/mod.rs
  src/mmu/mod.rs        (MMU: read_byte / write_byte / step / words)
  src/cpu/mod.rs        (CPU: the interrupt-dispatch part of step, push,
                         interrupt)
  src/assembler/parser.rs (the RST operand validation)
-/

/-- `bit` helper from the source: `if value { 1 << position } else { 0 }`. -/
def bitv (value : Bool) (position : Nat) : Nat :=
  if value then 1 <<< position else 0

/-- `is_set` helper from the source: `(byte >> position) & 1 == 1`. -/
def is_set (byte position : Nat) : Bool :=
  (byte >>> position) &&& 1 == 1

/-- Pointwise update of a one-argument byte store. -/
def upd1 (f : Nat → Nat) (i v : Nat) : Nat → Nat :=
  fun j => if j = i then v else f j

/-- Pointwise update of a two-argument (bank, offset) byte store. -/
def upd2 (f : Nat → Nat → Nat) (b i v : Nat) : Nat → Nat → Nat :=
  fun b' j => if b' = b ∧ j = i then v else f b' j

/-- Pointwise update of a three-argument palette store. -/
def upd3 (f : Nat → Nat → Nat → Nat) (x y z v : Nat) : Nat → Nat → Nat → Nat :=
  fun x' y' z' => if x' = x ∧ y' = y ∧ z' = z then v else f x' y' z'

theorem is_set_eq_testBit (b p : Nat) : is_set b p = Nat.testBit b p := by
  simp [is_set, Nat.testBit, Nat.and_comm]

theorem iteSkip {c : Prop} [Decidable c] {α : Sort _} {t e : α} (h : ¬c) :
    (if c then t else e) = e := if_neg h

theorem iteTake {c : Prop} [Decidable c] {α : Sort _} {t e : α} (h : c) :
    (if c then t else e) = t := if_pos h

/- ---------------------------------------------------------------- -/
/- Timer (src/mmu/timer.rs)                                          -/
/- ---------------------------------------------------------------- -/

structure Timer where
  divider : Nat
  counter : Nat
  modulo : Nat
  enabled : Bool
  step : Nat
  internal_counter : Nat
  internal_divider : Nat
  interrupt : Nat

/-- `Timer::new`. -/
def Timer.new : Timer :=
  { divider := 0, counter := 0, modulo := 0, enabled := false,
    step := 1024, internal_counter := 0, internal_divider := 0,
    interrupt := 0 }

/-- The `while self.internal_divider >= 256` loop of `Timer::step`. -/
def timerDivLoop (divider idiv : Nat) : Nat × Nat :=
  if idiv ≥ 256 then timerDivLoop ((divider + 1) % 256) (idiv - 256)
  else (divider, idiv)
termination_by idiv
decreasing_by omega

/-- The `while self.internal_counter >= self.step` loop of `Timer::step`.
Returns (counter, internal_counter, interrupt).  The source loops forever
when `step == 0`; that value is unreachable (`step ∈ {16,64,256,1024}`),
and this model returns the state unchanged there. -/
def timerCtrLoop (counter modulo ic stp intr : Nat) : Nat × Nat × Nat :=
  if stp = 0 then (counter, ic, intr)
  else if ic ≥ stp then
    let c := (counter + 1) % 256
    if c = 0 then timerCtrLoop modulo modulo (ic - stp) stp (intr ||| 0x04)
    else timerCtrLoop c modulo (ic - stp) stp intr
  else (counter, ic, intr)
termination_by ic
decreasing_by all_goals omega

/-- `Timer::step` (named `tick` here because `step` is the struct field). -/
def Timer.tick (t : Timer) (ticks : Nat) : Timer :=
  let p := timerDivLoop t.divider (t.internal_divider + ticks)
  if t.enabled then
    let q := timerCtrLoop t.counter t.modulo (t.internal_counter + ticks)
      t.step t.interrupt
    { t with divider := p.1, internal_divider := p.2,
             counter := q.1, internal_counter := q.2.1,
             interrupt := q.2.2 }
  else
    { t with divider := p.1, internal_divider := p.2 }

/-- `Timer::read_byte` (the assert restricts to 0xFF04–0xFF07; the
catch-all is unreachable from the MMU). -/
def Timer.read_byte (t : Timer) (a : Nat) : Nat :=
  if a = 0xFF04 then t.divider
  else if a = 0xFF05 then t.counter
  else if a = 0xFF06 then t.modulo
  else if a = 0xFF07 then
    0xF8 ||| (if t.enabled then 0x4 else 0) |||
      (if t.step = 16 then 1 else if t.step = 64 then 2
       else if t.step = 256 then 3 else 0)
  else 0xFF

/-- `Timer::write_byte`. -/
def Timer.write_byte (t : Timer) (a v : Nat) : Timer :=
  if a = 0xFF04 then { t with divider := 0 }
  else if a = 0xFF05 then { t with counter := v }
  else if a = 0xFF06 then { t with modulo := v }
  else if a = 0xFF07 then
    { t with enabled := v &&& 0x4 != 0,
             step := if v &&& 0x3 = 1 then 16
                     else if v &&& 0x3 = 2 then 64
                     else if v &&& 0x3 = 3 then 256
                     else 1024 }
  else t

/- ---------------------------------------------------------------- -/
/- Joypad (src/io/joypad.rs)                                         -/
/- ---------------------------------------------------------------- -/

inductive Selected where
  | Buttons | DPad | Both | NoneSel
deriving DecidableEq

structure Joypad where
  selected : Selected
  start : Bool
  selectBtn : Bool
  b : Bool
  a : Bool
  down : Bool
  up : Bool
  left : Bool
  right : Bool

/-- `Joypad::new`. -/
def Joypad.new : Joypad :=
  { selected := Selected.Buttons, start := false, selectBtn := false,
    b := false, a := false, down := false, up := false,
    left := false, right := false }

/-- `Joypad::write_byte`. -/
def Joypad.write_byte (j : Joypad) (byte : Nat) : Joypad :=
  let button_selected := !(is_set byte 5)
  let dpad_selected := !(is_set byte 4)
  if button_selected && dpad_selected then { j with selected := Selected.Both }
  else if button_selected then { j with selected := Selected.Buttons }
  else if dpad_selected then { j with selected := Selected.DPad }
  else { j with selected := Selected.NoneSel }

/-- `Joypad::read_byte`. -/
def Joypad.read_byte (j : Joypad) : Nat :=
  match j.selected with
  | Selected.Buttons =>
    0b11010000 ||| (bitv (!j.start) 0 <<< 3) ||| (bitv (!j.selectBtn) 0 <<< 2)
      ||| (bitv (!j.b) 0 <<< 1) ||| bitv (!j.a) 0
  | Selected.DPad =>
    0b11100000 ||| (bitv (!j.down) 0 <<< 3) ||| (bitv (!j.up) 0 <<< 2)
      ||| (bitv (!j.left) 0 <<< 1) ||| bitv (!j.right) 0
  | Selected.Both =>
    0b11000000 ||| (bitv (!j.start) 0 <<< 3) ||| (bitv (!j.selectBtn) 0 <<< 2)
      ||| (bitv (!j.b) 0 <<< 1) ||| bitv (!j.a) 0
      ||| (bitv (!j.down) 0 <<< 3) ||| (bitv (!j.up) 0 <<< 2)
      ||| (bitv (!j.left) 0 <<< 1) ||| bitv (!j.right) 0
  | Selected.NoneSel => 0xFF

/- ---------------------------------------------------------------- -/
/- GbMode (src/gbmode.rs)                                            -/
/- ---------------------------------------------------------------- -/

inductive GbMode where
  | Classic | Color
deriving DecidableEq

/- ---------------------------------------------------------------- -/
/- PPU (src/ppu/mod.rs)                                              -/
/- ---------------------------------------------------------------- -/

/-- PPU state.  The output frame buffer and the per-pixel background
priority array (`screen_buffer`, `bg_priority`) are the only fields of
the source struct not modelled; `render_scanline`, `draw_bg`,
`draw_sprites`, `set_color`, `set_rgb` and `clear_screen` write only to
those two fields and to `wy_pos`, which is modelled. -/
structure PPU where
  vram : Nat → Nat → Nat
  oam : Nat → Nat
  selected_vram_bank : Bool
  lcd_on : Bool
  win_tilemap : Nat
  win_enabled : Bool
  tile_data_addr : Nat
  bg_tilemap_addr : Nat
  sprite_size : Nat
  sprite_enabled : Bool
  bg_enabled : Bool
  lyc_interrupt : Bool
  mode_2_interrupt : Bool
  mode_1_interrupt : Bool
  mode_0_interrupt : Bool
  ly : Nat
  lyc : Nat
  mode : Nat
  scy : Nat
  scx : Nat
  bg_palette : Nat
  obj_palette0 : Nat
  obj_palette1 : Nat
  winy : Nat
  winx : Nat
  cbg_palette_auto_increment : Bool
  cbg_palette_index : Nat
  cbg_palette : Nat → Nat → Nat → Nat
  cobj_palette_auto_increment : Bool
  cobj_palette_index : Nat
  cobj_palette : Nat → Nat → Nat → Nat
  wy_trigger : Bool
  wy_pos : Int
  interrupt : Nat
  hblank : Bool
  dots : Nat
  screen_buffer_updated : Bool
  gb_mode : GbMode

/-- `PPU::new`. -/
def PPU.new (gb_mode : GbMode) : PPU :=
  { vram := fun _ _ => 0, oam := fun _ => 0, selected_vram_bank := false,
    lcd_on := false, win_tilemap := 0x9C00, win_enabled := false,
    tile_data_addr := 0x8000, bg_tilemap_addr := 0x9C00, sprite_size := 8,
    sprite_enabled := false, bg_enabled := false,
    lyc_interrupt := false, mode_2_interrupt := false,
    mode_1_interrupt := false, mode_0_interrupt := false,
    ly := 0, lyc := 0, mode := 0, scy := 0, scx := 0,
    bg_palette := 0, obj_palette0 := 0, obj_palette1 := 0,
    winy := 0, winx := 0,
    cbg_palette_auto_increment := false, cbg_palette_index := 0,
    cbg_palette := fun _ _ _ => 0,
    cobj_palette_auto_increment := false, cobj_palette_index := 0,
    cobj_palette := fun _ _ _ => 0,
    wy_trigger := false, wy_pos := 0, interrupt := 0, hblank := false,
    dots := 0, screen_buffer_updated := false, gb_mode := gb_mode }

/-- `PPU::check_lyc_interrupt`. -/
def PPU.check_lyc_interrupt (p : PPU) : PPU :=
  if p.lyc_interrupt && p.ly == p.lyc then
    { p with interrupt := p.interrupt ||| bitv true 1 }
  else p

/-- `PPU::render_scanline`.  Of the modelled fields only `wy_pos` is
written (by `draw_bg`, incremented when the window is enabled,
triggered, and `winx <= 166`); all other writes of
`render_scanline`/`draw_bg`/`draw_sprites` go to the frame buffer and
the background-priority array, which are outside the modelled state. -/
def PPU.render_scanline (p : PPU) : PPU :=
  if p.win_enabled && p.wy_trigger && p.winx ≤ 166 then
    { p with wy_pos := p.wy_pos + 1 }
  else p

/-- `PPU::change_mode`. -/
def PPU.change_mode (p : PPU) (mode : Nat) : PPU :=
  let p := { p with mode := mode }
  if mode = 0 then
    let p := p.render_scanline
    let p := { p with hblank := true }
    if p.mode_0_interrupt then { p with interrupt := p.interrupt ||| bitv true 1 }
    else p
  else if mode = 1 then
    let p := { p with wy_trigger := false,
                      interrupt := p.interrupt ||| bitv true 0 }
    let p := if p.mode_1_interrupt then
               { p with interrupt := p.interrupt ||| bitv true 1 }
             else p
    { p with screen_buffer_updated := true }
  else if mode = 2 then
    if p.mode_2_interrupt then { p with interrupt := p.interrupt ||| bitv true 1 }
    else p
  else if mode = 3 then
    if p.win_enabled && !p.wy_trigger && p.ly == p.winy then
      { p with wy_trigger := true, wy_pos := -1 }
    else p
  else p

/-- First half of the `while cycles_left > 0` loop body of `PPU::step`:
advance the dot counter by the chunk and handle the end of a scanline
(`if self.dots >= 456 { .. }`). -/
def PPU.stepChunkDots (p : PPU) (current_cycles : Nat) : PPU :=
  let p : PPU := { p with dots := (p.dots + current_cycles) % 65536 }
  if p.dots ≥ 456 then
    let p : PPU := { p with dots := p.dots - 456, ly := (p.ly + 1) % 154 }
    let p : PPU := p.check_lyc_interrupt
    if p.ly ≥ 144 ∧ p.mode ≠ 1 then p.change_mode 1 else p
  else p

/-- Second half of the loop body of `PPU::step`: update the mode from
the current line and dot counter (`if self.ly < 144 { .. }`). -/
def PPU.stepChunkMode (p : PPU) : PPU :=
  if p.ly < 144 then
    if p.dots ≤ 80 then
      if p.mode != 2 then p.change_mode 2 else p
    else if p.dots ≤ 252 then
      if p.mode != 3 then p.change_mode 3 else p
    else
      if p.mode != 0 then p.change_mode 0 else p
  else p

/-- One iteration of the `while cycles_left > 0` loop body of
`PPU::step`, for a chunk of `current_cycles` dots (at most 80). -/
def PPU.stepChunk (p : PPU) (current_cycles : Nat) : PPU :=
  (p.stepChunkDots current_cycles).stepChunkMode

/-- The `while cycles_left > 0` loop of `PPU::step`. -/
def PPU.stepLoop (p : PPU) (cycles_left : Nat) : PPU :=
  if cycles_left = 0 then p
  else
    PPU.stepLoop (p.stepChunk (min cycles_left 80)) (cycles_left - min cycles_left 80)
termination_by cycles_left
decreasing_by omega

/-- `PPU::step`. -/
def PPU.step (p : PPU) (cycles : Nat) : PPU :=
  if !p.lcd_on then p
  else PPU.stepLoop { p with hblank := false } cycles

/-- `PPU::read_vram` (the assert `addr <= 0x2000` holds at every MMU
call site). -/
def PPU.read_vram (p : PPU) (addr : Nat) : Nat :=
  p.vram (if p.selected_vram_bank then 1 else 0) addr

/-- `PPU::write_vram`. -/
def PPU.write_vram (p : PPU) (addr value : Nat) : PPU :=
  { p with vram := upd2 p.vram (if p.selected_vram_bank then 1 else 0) addr value }

/-- `PPU::read_oam`. -/
def PPU.read_oam (p : PPU) (addr : Nat) : Nat := p.oam addr

/-- `PPU::write_oam`. -/
def PPU.write_oam (p : PPU) (addr value : Nat) : PPU :=
  { p with oam := upd1 p.oam addr value }

/-- `PPU::read_register` (asserted range 0xFF40–0xFF4B, 0xFF68–0xFF6B;
catch-all unreachable from the MMU). -/
def PPU.read_register (p : PPU) (addr : Nat) : Nat :=
  if addr = 0xFF40 then
    bitv p.lcd_on 7 ||| bitv (p.win_tilemap == 0x9C00) 6
      ||| bitv p.win_enabled 5 ||| bitv (p.tile_data_addr == 0x8000) 4
      ||| bitv (p.bg_tilemap_addr == 0x9C00) 3 ||| bitv (p.sprite_size == 16) 2
      ||| bitv p.sprite_enabled 1 ||| bitv p.bg_enabled 0
  else if addr = 0xFF41 then
    bitv true 7 ||| bitv p.lyc_interrupt 6 ||| bitv p.mode_2_interrupt 5
      ||| bitv p.mode_1_interrupt 4 ||| bitv p.mode_0_interrupt 3
      ||| bitv (p.ly == p.lyc) 2 ||| p.mode
  else if addr = 0xFF42 then p.scy
  else if addr = 0xFF43 then p.scx
  else if addr = 0xFF44 then p.ly
  else if addr = 0xFF45 then p.lyc
  else if addr = 0xFF46 then 0x00
  else if addr = 0xFF47 then p.bg_palette
  else if addr = 0xFF48 then p.obj_palette0
  else if addr = 0xFF49 then p.obj_palette1
  else if addr = 0xFF4A then p.winy
  else if addr = 0xFF4B then p.winx
  else if 0xFF4F ≤ addr ∧ addr ≤ 0xFF6B ∧ p.gb_mode ≠ GbMode.Color then 0xFF
  else if addr = 0xFF68 then
    bitv p.cbg_palette_auto_increment 7 ||| bitv true 6 ||| p.cbg_palette_index
  else if addr = 0xFF69 then
    let palette_num := p.cbg_palette_index / 8
    let color_num := (p.cbg_palette_index / 2) % 4
    if p.cbg_palette_index % 2 = 0 then
      p.cbg_palette palette_num color_num 0
        ||| ((p.cbg_palette palette_num color_num 1 &&& 0x07) <<< 5)
    else
      ((p.cbg_palette palette_num color_num 1 &&& 0x18) >>> 3)
        ||| (p.cbg_palette palette_num color_num 2 <<< 2)
  else if addr = 0xFF6A then
    bitv p.cobj_palette_auto_increment 7 ||| bitv true 6 ||| p.cobj_palette_index
  else if addr = 0xFF6B then
    let palette_num := p.cobj_palette_index / 8
    let color_num := (p.cobj_palette_index / 2) % 4
    if p.cobj_palette_index % 2 = 0 then
      p.cobj_palette palette_num color_num 0
        ||| ((p.cobj_palette palette_num color_num 1 &&& 0x07) <<< 5)
    else
      ((p.cobj_palette palette_num color_num 1 &&& 0x18) >>> 3)
        ||| (p.cobj_palette palette_num color_num 2 <<< 2)
  else 0xFF

/-- `PPU::write_register`.  `none` models the `panic!` at 0xFF46 and the
unreachable catch-all. -/
def PPU.write_register (p : PPU) (addr value : Nat) : Option PPU :=
  if addr = 0xFF40 then
    let orig_lcd_on := p.lcd_on
    let p := { p with
      lcd_on := is_set value 7,
      win_tilemap := if is_set value 6 then 0x9C00 else 0x9800,
      win_enabled := is_set value 5,
      tile_data_addr := if is_set value 4 then 0x8000 else 0x8800,
      bg_tilemap_addr := if is_set value 3 then 0x9C00 else 0x9800,
      sprite_size := if is_set value 2 then 16 else 8,
      sprite_enabled := is_set value 1,
      bg_enabled := is_set value 0 }
    let p := if orig_lcd_on && !p.lcd_on then
               { p with dots := 0, ly := 0, mode := 0, wy_trigger := false }
             else p
    let p := if !orig_lcd_on && p.lcd_on then
               { p.change_mode 2 with dots := 4 }
             else p
    some p
  else if addr = 0xFF41 then
    some { p with lyc_interrupt := is_set value 6,
                  mode_2_interrupt := is_set value 5,
                  mode_1_interrupt := is_set value 4,
                  mode_0_interrupt := is_set value 3 }
  else if addr = 0xFF42 then some { p with scy := value }
  else if addr = 0xFF43 then some { p with scx := value }
  else if addr = 0xFF44 then some p
  else if addr = 0xFF45 then
    some (PPU.check_lyc_interrupt { p with lyc := value })
  else if addr = 0xFF46 then none
  else if addr = 0xFF47 then some { p with bg_palette := value }
  else if addr = 0xFF48 then some { p with obj_palette0 := value }
  else if addr = 0xFF49 then some { p with obj_palette1 := value }
  else if addr = 0xFF4A then some { p with winy := value }
  else if addr = 0xFF4B then some { p with winx := value }
  else if 0xFF4F ≤ addr ∧ addr ≤ 0xFF6B ∧ p.gb_mode ≠ GbMode.Color then some p
  else if addr = 0xFF68 then
    some { p with cbg_palette_index := value &&& 0x3F,
                  cbg_palette_auto_increment := is_set value 7 }
  else if addr = 0xFF69 then
    let palette_num := p.cbg_palette_index / 8
    let color_num := (p.cbg_palette_index / 2) % 4
    let pal := p.cbg_palette
    let pal :=
      if p.cbg_palette_index % 2 = 0 then
        let pal := upd3 pal palette_num color_num 0 (value &&& 0x1F)
        upd3 pal palette_num color_num 1
          ((pal palette_num color_num 1 &&& 0x18) ||| (value >>> 5))
      else
        let pal := upd3 pal palette_num color_num 1
          ((pal palette_num color_num 1 &&& 0x07) ||| ((value &&& 0x03) <<< 3))
        upd3 pal palette_num color_num 2 ((value >>> 2) &&& 0x1F)
    let p := { p with cbg_palette := pal }
    if p.cbg_palette_auto_increment then
      some { p with cbg_palette_index := (p.cbg_palette_index + 1) &&& 0x3F }
    else some p
  else if addr = 0xFF6A then
    some { p with cobj_palette_index := value &&& 0x3F,
                  cobj_palette_auto_increment := is_set value 7 }
  else if addr = 0xFF6B then
    let palette_num := p.cobj_palette_index / 8
    let color_num := (p.cobj_palette_index / 2) % 4
    let pal := p.cobj_palette
    let pal :=
      if p.cobj_palette_index % 2 = 0 then
        let pal := upd3 pal palette_num color_num 0 (value &&& 0x1F)
        upd3 pal palette_num color_num 1
          ((pal palette_num color_num 1 &&& 0x18) ||| (value >>> 5))
      else
        let pal := upd3 pal palette_num color_num 1
          ((pal palette_num color_num 1 &&& 0x07) ||| ((value &&& 0x03) <<< 3))
        upd3 pal palette_num color_num 2 ((value >>> 2) &&& 0x1F)
    let p := { p with cobj_palette := pal }
    if p.cobj_palette_auto_increment then
      some { p with cobj_palette_index := (p.cobj_palette_index + 1) &&& 0x3F }
    else some p
  else none

/- ---------------------------------------------------------------- -/
/- MBC family (src/mbc/mod.rs, mbc0.rs, mbc1.rs, mbc3.rs)            -/
/- ---------------------------------------------------------------- -/

/-- `mbc::ram_bank_count` (src/mbc/mod.rs). -/
def ram_bank_count (code : Nat) : Nat :=
  if code = 1 then 1 else if code = 2 then 2 else if code = 3 then 4
  else if code = 4 then 16 else if code = 5 then 8 else 0

/-- `mbc::rom_bank_count` (src/mbc/mod.rs). -/
def rom_bank_count (code : Nat) : Nat :=
  if code = 0 then 2 else if code = 1 then 4 else if code = 2 then 8
  else if code = 3 then 16 else if code = 4 then 32 else if code = 5 then 64
  else if code = 6 then 128 else if code = 0x52 then 72
  else if code = 0x53 then 80 else if code = 0x54 then 96 else 0

/-- MBC0 state (src/mbc/mbc0.rs).  `Vec<u8>` ROM is modelled as a byte
function plus a length. -/
structure Mbc0 where
  rom : Nat → Nat
  rom_len : Nat

/-- `MBC0::read_rom`: `self.rom[address]`, panics out of bounds. -/
def Mbc0.read_rom (m : Mbc0) (address : Nat) : Option Nat :=
  if address < m.rom_len then some (m.rom address) else none

/-- `MBC0::read_ram`: constant 0. -/
def Mbc0.read_ram (_ : Mbc0) (_ : Nat) : Nat := 0

/-- MBC1 state (src/mbc/mbc1.rs). -/
structure MBC1 where
  rom : Nat → Nat
  rom_len : Nat
  ram : Nat → Nat
  ram_len : Nat
  ram_enabled : Bool
  selected_rom_bank : Nat
  selected_ram_bank : Nat
  ram_bank_count : Nat
  rom_bank_count : Nat
  banking_mode : Nat
  has_battery : Bool

/-- `MBC1::read_rom`: `rom.get(idx).unwrap_or(&0xFF)`, total. -/
def MBC1.read_rom (m : MBC1) (address : Nat) : Nat :=
  let bank :=
    if address < 0x4000 then
      if m.banking_mode = 0 then 0 else m.selected_rom_bank &&& 0xE0
    else m.selected_rom_bank
  let idx := bank * 0x4000 ||| (address &&& 0x3FFF)
  if idx < m.rom_len then m.rom idx else 0xFF

/-- `MBC1::read_ram`: `none` models the out-of-bounds panic of
`self.ram[..]` (unreachable while `ram_len = ram_bank_count * 0x2000`
and the banking-mode invariants hold). -/
def MBC1.read_ram (m : MBC1) (address : Nat) : Option Nat :=
  if !m.ram_enabled then some 0xFF
  else
    let ram_bank := if m.banking_mode = 1 then m.selected_ram_bank else 0
    let idx := ram_bank * 0x2000 ||| (address &&& 0x1FFF)
    if idx < m.ram_len then some (m.ram idx) else none

/-- `MBC1::write_rom`.  `none` models the `%`-by-zero panic (when the
declared ROM bank count is 0) and the catch-all `panic!`.  In the
0x4000–0x5FFF arm, Rust precedence makes `value & 0x03 % (count >> 5)`
parse as `value & (0x03 % (count >> 5))`, and the second `if` assigns
`selected_rom_bank` (not `selected_ram_bank`), both kept verbatim. -/
def MBC1.write_rom (m : MBC1) (address value : Nat) : Option MBC1 :=
  if address ≤ 0x1FFF then
    some { m with ram_enabled := value &&& 0xF == 0xA }
  else if address ≤ 0x3FFF then
    if m.rom_bank_count = 0 then none
    else
      let lower_bits := if value &&& 0x1F = 0 then 1 else value &&& 0x1F
      some { m with selected_rom_bank :=
        ((m.selected_rom_bank &&& 0x60) ||| lower_bits) % m.rom_bank_count }
  else if address ≤ 0x5FFF then
    let m : MBC1 :=
      if m.rom_bank_count > 0x20 then
        let upper_bits := value &&& (0x03 % (m.rom_bank_count >>> 5))
        { m with selected_rom_bank :=
          (m.selected_rom_bank &&& 0x1F) ||| (upper_bits <<< 5) }
      else m
    if m.rom_bank_count > 1 then
      some { m with selected_rom_bank := value &&& 0x03 }
    else some m
  else if address ≤ 0x7FFF then
    some { m with banking_mode := value &&& 0x01 }
  else none

/-- `MBC1::write_ram`.  `ram_bank as u16 * 0x2000` and
`self.ram.len() as u16` wrap at 2^16. -/
def MBC1.write_ram (m : MBC1) (address value : Nat) : MBC1 :=
  if !m.ram_enabled then m
  else
    let ram_bank := if m.banking_mode = 1 then m.selected_ram_bank else 0
    let address := ((ram_bank * 0x2000) % 65536) ||| (address &&& 0x1FFF)
    if address < m.ram_len % 65536 then
      { m with ram := upd1 m.ram address value }
    else m

/-- MBC3 state (src/mbc/mbc3.rs).  The real-time clock's reference to
the wall clock (`SystemTime::now`) is modelled by threading a `now`
parameter (seconds since the epoch) into the RTC operations. -/
structure Mbc3 where
  rom : Nat → Nat
  rom_len : Nat
  ram : Nat → Nat
  ram_len : Nat
  ram_enabled : Bool
  selected_rom_bank : Nat
  selected_ram_bank : Nat
  ram_bank_count : Nat
  rtc_selected : Bool
  rtc_ram : Nat → Nat
  rtc_ram_latch : Nat → Nat
  rtc_zero : Option Nat

/-- Wrapping `u64` subtraction (release-build semantics). -/
def sub64 (a b : Nat) : Nat :=
  (a + (2 ^ 64 - b % 2 ^ 64)) % 2 ^ 64

/-- `MBC3::compute_time_diff`. -/
def Mbc3.compute_time_diff (m : Mbc3) (now : Nat) : Option Nat :=
  match m.rtc_zero with
  | none => none
  | some _ =>
    let d := sub64 now (m.rtc_ram 0)
    let d := sub64 d (m.rtc_ram 1 * 60)
    let d := sub64 d (m.rtc_ram 2 * 3600)
    let days := ((m.rtc_ram 4 &&& 0x1) <<< 8) ||| m.rtc_ram 3
    some (sub64 d (days * 3600 * 24))

/-- `MBC3::calc_rtc_zero`. -/
def Mbc3.calc_rtc_zero (m : Mbc3) (now : Nat) : Mbc3 :=
  { m with rtc_zero := m.compute_time_diff now }

/-- `MBC3::calc_rtc_reg`. -/
def Mbc3.calc_rtc_reg (m : Mbc3) (now : Nat) : Mbc3 :=
  if is_set (m.rtc_ram 4) 6 then m
  else
    match m.rtc_zero with
    | none => m
    | some tzero =>
      if m.compute_time_diff now = m.rtc_zero then m
      else
        let time_diff := if now ≥ tzero then now - tzero else 0
        let r := m.rtc_ram
        let r := upd1 r 0 (time_diff % 60)
        let r := upd1 r 1 ((time_diff / 60) % 60)
        let r := upd1 r 2 ((time_diff / 3600) % 24)
        let days := time_diff / (3600 * 24)
        let r := upd1 r 3 (days % 256)
        let r := upd1 r 4 ((r 4 &&& 0xFE) ||| ((days >>> 8) &&& 0x01))
        let m : Mbc3 := { m with rtc_ram := r }
        if days ≥ 512 then
          Mbc3.calc_rtc_zero
            { m with rtc_ram := upd1 m.rtc_ram 4 (m.rtc_ram 4 ||| 0x80) } now
        else m

/-- `MBC3::latch_rtc_reg`. -/
def Mbc3.latch_rtc_reg (m : Mbc3) (now : Nat) : Mbc3 :=
  let m := m.calc_rtc_reg now
  { m with rtc_ram_latch := m.rtc_ram }

/-- `MBC3::read_rom`: `rom.get(index)` with 0xFF default, total. -/
def Mbc3.read_rom (m : Mbc3) (address : Nat) : Nat :=
  let index :=
    if address < 0x4000 then address
    else (m.selected_rom_bank * 0x4000) ||| (address &&& 0x3FFF)
  if index < m.rom_len then m.rom index else 0xFF

/-- `MBC3::read_ram`.  `none` models the out-of-bounds panic
(unreachable while `ram_len = ram_bank_count * 0x2000`). -/
def Mbc3.read_ram (m : Mbc3) (address : Nat) : Option Nat :=
  if !m.ram_enabled then some 0xFF
  else if !m.rtc_selected ∧ m.selected_ram_bank < m.ram_bank_count then
    let idx := (m.selected_ram_bank * 0x2000) ||| (address &&& 0x1FFF)
    if idx < m.ram_len then some (m.ram idx) else none
  else if m.rtc_selected ∧ m.selected_ram_bank < 5 then
    some (m.rtc_ram_latch m.selected_ram_bank)
  else some 0xFF

/-- `MBC3::write_rom`.  `none` models the catch-all `panic!`. -/
def Mbc3.write_rom (now : Nat) (m : Mbc3) (address value : Nat) : Option Mbc3 :=
  if address ≤ 0x1FFF then
    some { m with ram_enabled := value &&& 0xF == 0xA }
  else if address ≤ 0x3FFF then
    some { m with selected_rom_bank :=
      if value &&& 0x7F = 0 then 1 else value &&& 0x7F }
  else if address ≤ 0x5FFF then
    some { m with rtc_selected := is_set value 3,
                  selected_ram_bank := value &&& 0x7 }
  else if address ≤ 0x7FFF then
    some (m.latch_rtc_reg now)
  else none

/-- `MBC3::write_ram`. -/
def Mbc3.write_ram (now : Nat) (m : Mbc3) (address value : Nat) : Mbc3 :=
  if !m.ram_enabled then m
  else if !m.rtc_selected ∧ m.selected_ram_bank < m.ram_bank_count then
    let idx := (m.selected_ram_bank * 0x2000) ||| (address &&& 0x1FFF)
    { m with ram := upd1 m.ram idx value }
  else if m.rtc_selected ∧ m.selected_ram_bank < 5 then
    let m := m.calc_rtc_zero now
    let mask :=
      if m.selected_ram_bank = 0 ∨ m.selected_ram_bank = 1 then 0x3F
      else if m.selected_ram_bank = 2 then 0x1F
      else if m.selected_ram_bank = 4 then 0xC1
      else 0xFF
    let m : Mbc3 :=
      { m with rtc_ram := upd1 m.rtc_ram m.selected_ram_bank (value &&& mask) }
    m.calc_rtc_zero now
  else m

/-- The `Box<dyn MBC>` held by the cartridge (src/cartridge.rs),
restricted to the variants `mbc::new_mbc` can construct. -/
inductive Cartridge where
  | mbc0 : Mbc0 → Cartridge
  | mbc1 : MBC1 → Cartridge
  | mbc3 : Mbc3 → Cartridge

/-- `Cartridge::read_rom` (delegates to the bank controller). -/
def Cartridge.read_rom (c : Cartridge) (address : Nat) : Option Nat :=
  match c with
  | Cartridge.mbc0 m => m.read_rom address
  | Cartridge.mbc1 m => some (m.read_rom address)
  | Cartridge.mbc3 m => m.read_rom address

/-- `Cartridge::read_ram` (delegates to the bank controller). -/
def Cartridge.read_ram (c : Cartridge) (address : Nat) : Option Nat :=
  match c with
  | Cartridge.mbc0 m => some (m.read_ram address)
  | Cartridge.mbc1 m => m.read_ram address
  | Cartridge.mbc3 m => m.read_ram address

/- ---------------------------------------------------------------- -/
/- MMU (src/mmu/mod.rs)                                              -/
/- ---------------------------------------------------------------- -/

inductive DMAType where
  | NoDMA | GDMA | HDMA
deriving DecidableEq

/-- MMU state.  `wram` is 8 banks of 0x1000 bytes, `hram` 0x7F bytes,
`hdma` the 0x10 HDMA register file; `boot_rom` is `Option<[u8; 256]>`. -/
structure MMU where
  cartridge : Cartridge
  boot_rom : Option (Nat → Nat)
  wram : Nat → Nat → Nat
  hram : Nat → Nat
  hdma : Nat → Nat
  hdma_src : Nat
  hdma_dst : Nat
  hdma_len : Nat
  hdma_status : DMAType
  selected_wram_bank : Nat
  interrupt_flags : Nat
  interrupt_enable : Nat
  joypad : Joypad
  ppu : PPU
  timer : Timer

/-- `MMU::step`: forward cycles to Timer and PPU and OR-merge their
interrupt lines into the shared pending register, clearing each. -/
def MMU.step (m : MMU) (cycles : Nat) : MMU :=
  let t := m.timer.tick cycles
  let m := { m with timer := { t with interrupt := 0 },
                    interrupt_flags := m.interrupt_flags ||| t.interrupt }
  let p := m.ppu.step cycles
  { m with ppu := { p with interrupt := 0 },
           interrupt_flags := m.interrupt_flags ||| p.interrupt }

/-- `MMU::has_interrupt`. -/
def MMU.has_interrupt (m : MMU) : Bool :=
  m.interrupt_flags &&& m.interrupt_enable != 0

/-- `MMU::read_byte`.  `none` models the panics reachable through it:
wram bank indexing with `selected_wram_bank >= 8` and out-of-bounds
`MBC0` ROM / MBC RAM indexing. -/
def MMU.read_byte (m : MMU) (addr : Nat) : Option Nat :=
  if addr ≤ 0x00FF then
    match m.boot_rom with
    | some boot_ram => some (boot_ram addr)
    | none => m.cartridge.read_rom addr
  else if addr ≤ 0x7FFF then m.cartridge.read_rom addr
  else if addr ≤ 0x9FFF then some (m.ppu.read_vram (addr - 0x8000))
  else if addr ≤ 0xBFFF then m.cartridge.read_ram (addr - 0xA000)
  else if addr ≤ 0xCFFF then some (m.wram 0 (addr - 0xC000))
  else if addr ≤ 0xDFFF then
    if m.selected_wram_bank < 8 then
      some (m.wram m.selected_wram_bank (addr - 0xD000))
    else none
  else if addr ≤ 0xFDFF then
    some (m.wram ((addr - 0xE000) / 0x1000) ((addr - 0xE000) % 0x1000))
  else if addr ≤ 0xFE9F then some (m.ppu.read_oam (addr - 0xFE00))
  else if addr ≤ 0xFEFF then some 0x00
  else if addr = 0xFF00 then some m.joypad.read_byte
  else if addr = 0xFF01 then some 0
  else if addr = 0xFF02 then some 0
  else if addr = 0xFF03 then some 0xFF
  else if addr ≤ 0xFF07 then some (m.timer.read_byte addr)
  else if addr ≤ 0xFF0E then some 0xFF
  else if addr = 0xFF0F then some m.interrupt_flags
  else if addr ≤ 0xFF3F then some 0
  else if addr ≤ 0xFF4B then some (m.ppu.read_register addr)
  else if addr = 0xFF4C then some 0xFF
  else if addr = 0xFF4D then some 0
  else if addr = 0xFF4E then some 0xFF
  else if addr = 0xFF4F then some (if m.ppu.selected_vram_bank then 1 else 0)
  else if addr = 0xFF50 then some 0xFF
  else if addr ≤ 0xFF54 then some (m.hdma (addr - 0xFF51))
  else if addr = 0xFF55 then
    some (m.hdma_len ||| bitv (m.hdma_status == DMAType.NoDMA) 7)
  else if addr = 0xFF56 then some 0
  else if addr ≤ 0xFF67 then some 0xFF
  else if addr ≤ 0xFF6B then some (m.ppu.read_register addr)
  else if addr = 0xFF6C then some 0
  else if addr ≤ 0xFF6F then some 0xFF
  else if addr = 0xFF70 then some m.selected_wram_bank
  else if addr ≤ 0xFF75 then some 0xFF
  else if addr ≤ 0xFF77 then some 0
  else if addr ≤ 0xFF7F then some 0xFF
  else if addr ≤ 0xFFFE then some (m.hram (addr - 0xFF80))
  else if addr = 0xFFFF then some m.interrupt_enable
  else none

/-- `MMU::write_byte`.  `none` models the reachable panics: wram bank
indexing with `selected_wram_bank >= 8`, the illegal-HDMA-source
`panic!` at 0xFF55, and `PPU::write_register`'s 0xFF46 `panic!`. -/
def MMU.write_byte (m : MMU) (addr value : Nat) : Option MMU :=
  if addr ≤ 0x3FFF then some m
  else if addr ≤ 0x7FFF then some m
  else if addr ≤ 0x9FFF then
    some { m with ppu := m.ppu.write_vram (addr - 0x8000) value }
  else if addr ≤ 0xBFFF then some m
  else if addr ≤ 0xCFFF then
    some { m with wram := upd2 m.wram 0 (addr - 0xC000) value }
  else if addr ≤ 0xDFFF then
    if m.selected_wram_bank < 8 then
      some { m with wram := upd2 m.wram m.selected_wram_bank (addr - 0xD000) value }
    else none
  else if addr ≤ 0xFDFF then
    let w := upd2 m.wram ((addr - 0xE000) / 0x1000) ((addr - 0xE000) % 0x1000) value
    some { m with wram := w }
  else if addr ≤ 0xFE9F then
    some { m with ppu := m.ppu.write_oam (addr - 0xFE00) value }
  else if addr ≤ 0xFEFF then some m
  else if addr = 0xFF00 then some { m with joypad := m.joypad.write_byte value }
  else if addr ≤ 0xFF03 then some m
  else if addr ≤ 0xFF07 then
    some { m with timer := m.timer.write_byte addr value }
  else if addr ≤ 0xFF0E then some m
  else if addr = 0xFF0F then some { m with interrupt_flags := value }
  else if addr ≤ 0xFF3F then some m
  else if addr ≤ 0xFF4B then
    (m.ppu.write_register addr value).map (fun p => { m with ppu := p })
  else if addr ≤ 0xFF4E then some m
  else if addr = 0xFF4F then
    some { m with ppu := { m.ppu with selected_vram_bank := value > 0 } }
  else if addr = 0xFF50 then some { m with boot_rom := none }
  else if addr = 0xFF51 then some { m with hdma := upd1 m.hdma 0 value }
  else if addr = 0xFF52 then some { m with hdma := upd1 m.hdma 1 (value &&& 0xF0) }
  else if addr = 0xFF53 then some { m with hdma := upd1 m.hdma 2 (value &&& 0x1F) }
  else if addr = 0xFF54 then some { m with hdma := upd1 m.hdma 3 (value &&& 0xF0) }
  else if addr = 0xFF55 then
    if m.hdma_status = DMAType.HDMA then
      if is_set value 7 then some { m with hdma_status := DMAType.NoDMA }
      else some m
    else
      let src := (m.hdma 0 <<< 8) ||| m.hdma 1
      let dst := ((m.hdma 2 <<< 8) ||| m.hdma 3) ||| 0x8000
      if src > 0x7FF0 ∧ (src < 0xA000 ∨ src > 0xDFF0) then none
      else
        some { m with hdma_src := src, hdma_dst := dst,
                      hdma_len := value &&& 0x7F,
                      hdma_status := if is_set value 7 then DMAType.HDMA
                                     else DMAType.GDMA }
  else if addr ≤ 0xFF67 then some m
  else if addr ≤ 0xFF6B then
    (m.ppu.write_register addr value).map (fun p => { m with ppu := p })
  else if addr ≤ 0xFF6F then some m
  else if addr = 0xFF70 then some { m with selected_wram_bank := value }
  else if addr ≤ 0xFF7F then some m
  else if addr ≤ 0xFFFE then
    some { m with hram := upd1 m.hram (addr - 0xFF80) value }
  else if addr = 0xFFFF then some { m with interrupt_enable := value }
  else none

/-- `MMU::read_word`. -/
def MMU.read_word (m : MMU) (addr : Nat) : Option Nat := do
  let low ← m.read_byte addr
  let high ← m.read_byte ((addr + 1) % 65536)
  pure ((high <<< 8) ||| low)

/-- `MMU::write_word`. -/
def MMU.write_word (m : MMU) (addr value : Nat) : Option MMU := do
  let m ← m.write_byte addr (value % 256)
  m.write_byte ((addr + 1) % 65536) ((value >>> 8) % 256)

/- ---------------------------------------------------------------- -/
/- CPU (src/cpu/mod.rs, src/cpu/register.rs)                         -/
/- ---------------------------------------------------------------- -/

structure FlagsRegister where
  zero : Bool
  subtract : Bool
  half_carry : Bool
  carry : Bool

structure Registers where
  a : Nat
  b : Nat
  c : Nat
  d : Nat
  e : Nat
  f : FlagsRegister
  h : Nat
  l : Nat
  sp : Nat
  pc : Nat

structure CPU where
  registers : Registers
  mmu : MMU
  call_stack : List (Nat × Nat × Nat)
  ime : Bool
  is_halted : Bool
  gb_mode : GbMode

/-- `CPU::push`: decrement `sp` by 2 (wrapping) and write the word. -/
def CPU.push (cpu : CPU) (value : Nat) : Option CPU :=
  let sp := (cpu.registers.sp + 65534) % 65536
  (cpu.mmu.write_word sp value).map
    (fun m => { cpu with registers := { cpu.registers with sp := sp }, mmu := m })

/-- `CPU::interrupt`: disable `ime`, push the current program counter,
record the call-stack entry, jump to the vector, and advance the MMU by
12 cycles. -/
def CPU.interrupt (cpu : CPU) (address : Nat) : Option CPU :=
  let cpu := { cpu with ime := false }
  (cpu.push cpu.registers.pc).map (fun cpu =>
    let cpu := { cpu with call_stack :=
      cpu.call_stack ++ [(cpu.registers.pc, address, cpu.registers.pc)] }
    let cpu := { cpu with registers := { cpu.registers with pc := address } }
    { cpu with mmu := cpu.mmu.step 12 })

/-- The tail of `CPU::step` (src/cpu/mod.rs lines 246–283): everything
after `self.mmu.step(cycles)` — halt release, program-counter commit,
and the priority-ordered interrupt dispatch.  `next_pc` and `cycles`
are the pair returned by `execute` for the decoded instruction; the
`cpu` argument is the state in which the instruction's side effects and
the MMU advance have already happened. -/
def CPU.step_post (cpu : CPU) (next_pc cycles : Nat) : Option (CPU × Nat) :=
  let cpu := if cpu.mmu.has_interrupt then { cpu with is_halted := false } else cpu
  let cpu : CPU :=
    if !cpu.is_halted then
      { cpu with registers := { cpu.registers with pc := next_pc } }
    else cpu
  if cpu.ime then
    if is_set cpu.mmu.interrupt_enable 0 && is_set cpu.mmu.interrupt_flags 0 then
      let cpu := { cpu with mmu :=
        { cpu.mmu with interrupt_flags := cpu.mmu.interrupt_flags &&& 0xFE } }
      (cpu.interrupt 0x40).map (fun c => (c, cycles + 12))
    else if is_set cpu.mmu.interrupt_enable 1 && is_set cpu.mmu.interrupt_flags 1 then
      let cpu := { cpu with mmu :=
        { cpu.mmu with interrupt_flags := cpu.mmu.interrupt_flags &&& 0xFD } }
      (cpu.interrupt 0x48).map (fun c => (c, cycles + 12))
    else if is_set cpu.mmu.interrupt_enable 2 && is_set cpu.mmu.interrupt_flags 2 then
      let cpu := { cpu with mmu :=
        { cpu.mmu with interrupt_flags := cpu.mmu.interrupt_flags &&& 0xFB } }
      (cpu.interrupt 0x50).map (fun c => (c, cycles + 12))
    else some (cpu, cycles)
  else some (cpu, cycles)

/-- `CPU::step` from the MMU advance onwards: advance the MMU by the
instruction's cycles, then run the dispatch tail. -/
def CPU.step_tail (cpu : CPU) (next_pc cycles : Nat) : Option (CPU × Nat) :=
  CPU.step_post { cpu with mmu := cpu.mmu.step cycles } next_pc cycles

/- ---------------------------------------------------------------- -/
/- Assembler parser: RST operand validation                          -/
/- (src/assembler/parser.rs, "RST" arm)                              -/
/- ---------------------------------------------------------------- -/

/-- The RST arm of `Parser::parse`: given the `Imm8` operand (a `u8`),
`panic!` (here `none`) iff `imm8 % 8 != 0 && imm8 <= 0x38`, otherwise
accept the operand for `Instruction::RST(imm8)`. -/
def parseRstOperand (imm8 : Nat) : Option Nat :=
  if imm8 % 8 ≠ 0 ∧ imm8 ≤ 0x38 then none else some imm8

/- ---------------------------------------------------------------- -/
/- Shared lemmas                                                     -/
/- ---------------------------------------------------------------- -/

theorem is_set_pair_false {x y : Nat} (h : x &&& y = 0) (i : Nat) :
    (is_set y i && is_set x i) = false := by
  rw [is_set_eq_testBit, is_set_eq_testBit, Bool.and_comm]
  have := Nat.testBit_land x y i
  rw [h] at this
  simpa [Nat.zero_testBit] using this.symm

theorem land_ne_zero_of_pair {x y i : Nat}
    (hx : is_set x i = true) (hy : is_set y i = true) : x &&& y ≠ 0 := by
  rw [is_set_eq_testBit] at hx hy
  intro h
  have := Nat.testBit_land x y i
  rw [h, hx, hy] at this
  simp [Nat.zero_testBit] at this

theorem MMU.has_interrupt_of_pair {m : MMU} {i : Nat}
    (he : is_set m.interrupt_enable i = true)
    (hf : is_set m.interrupt_flags i = true) : m.has_interrupt = true := by
  have := land_ne_zero_of_pair hf he
  simp [MMU.has_interrupt, this]

theorem MMU.land_zero_of_not_has_interrupt {m : MMU}
    (h : m.has_interrupt = false) :
    m.interrupt_flags &&& m.interrupt_enable = 0 := by
  simpa [MMU.has_interrupt] using h


/-- The 16-bit HDMA source address as assembled by the 0xFF55 write arm
of `MMU::write_byte`. -/
def hdmaSrc (m : MMU) : Nat := (m.hdma 0 <<< 8) ||| m.hdma 1

/-- Range resolution of `MMU::read_byte`: 0xC000–0xCFFF reads wram bank 0. -/
theorem MMU.read_byte_wram0 (m : MMU) (a : Nat)
    (h1 : 0xC000 ≤ a) (h2 : a ≤ 0xCFFF) :
    m.read_byte a = some (m.wram 0 (a - 0xC000)) := by
  unfold MMU.read_byte
  rw [iteSkip (by omega), iteSkip (by omega), iteSkip (by omega),
      iteSkip (by omega), iteTake (by omega)]

/-- Range resolution of `MMU::read_byte`: 0xD000–0xDFFF reads the selected wram bank; the indexing panics when the bank is 8 or more. -/
theorem MMU.read_byte_wramsel (m : MMU) (a : Nat)
    (h1 : 0xD000 ≤ a) (h2 : a ≤ 0xDFFF) :
    m.read_byte a =
      (if m.selected_wram_bank < 8 then
        some (m.wram m.selected_wram_bank (a - 0xD000))
      else none) := by
  unfold MMU.read_byte
  rw [iteSkip (by omega), iteSkip (by omega), iteSkip (by omega),
      iteSkip (by omega), iteSkip (by omega), iteTake (by omega)]

/-- Range resolution of `MMU::read_byte`: echo RAM 0xE000–0xFDFF. -/
theorem MMU.read_byte_echo (m : MMU) (a : Nat)
    (h1 : 0xE000 ≤ a) (h2 : a ≤ 0xFDFF) :
    m.read_byte a =
      some (m.wram ((a - 0xE000) / 0x1000) ((a - 0xE000) % 0x1000)) := by
  unfold MMU.read_byte
  rw [iteSkip (by omega), iteSkip (by omega), iteSkip (by omega),
      iteSkip (by omega), iteSkip (by omega), iteSkip (by omega),
      iteTake (by omega)]

/-- Range resolution of `MMU::read_byte`: high RAM 0xFF80–0xFFFE. -/
theorem MMU.read_byte_hram (m : MMU) (a : Nat)
    (h1 : 0xFF80 ≤ a) (h2 : a ≤ 0xFFFE) :
    m.read_byte a = some (m.hram (a - 0xFF80)) := by
  unfold MMU.read_byte
  rw [iteSkip (by omega), iteSkip (by omega), iteSkip (by omega),
      iteSkip (by omega), iteSkip (by omega), iteSkip (by omega),
      iteSkip (by omega), iteSkip (by omega), iteSkip (by omega),
      iteSkip (by omega), iteSkip (by omega), iteSkip (by omega),
      iteSkip (by omega), iteSkip (by omega), iteSkip (by omega),
      iteSkip (by omega), iteSkip (by omega), iteSkip (by omega),
      iteSkip (by omega), iteSkip (by omega), iteSkip (by omega),
      iteSkip (by omega), iteSkip (by omega), iteSkip (by omega),
      iteSkip (by omega), iteSkip (by omega), iteSkip (by omega),
      iteSkip (by omega), iteSkip (by omega), iteSkip (by omega),
      iteSkip (by omega), iteSkip (by omega), iteSkip (by omega),
      iteSkip (by omega), iteTake (by omega)]

/-- Range resolution of `MMU::read_byte`: cartridge RAM 0xA000–0xBFFF delegates to the bank controller. -/
theorem MMU.read_byte_cartram (m : MMU) (a : Nat)
    (h1 : 0xA000 ≤ a) (h2 : a ≤ 0xBFFF) :
    m.read_byte a = m.cartridge.read_ram (a - 0xA000) := by
  unfold MMU.read_byte
  rw [iteSkip (by omega), iteSkip (by omega), iteSkip (by omega),
      iteTake (by omega)]

/-- Range resolution of `MMU::write_byte`: 0xC000–0xCFFF writes wram
bank 0. -/
theorem MMU.write_byte_wram0 (m : MMU) (a v : Nat)
    (h1 : 0xC000 ≤ a) (h2 : a ≤ 0xCFFF) :
    m.write_byte a v = some { m with wram := upd2 m.wram 0 (a - 0xC000) v } := by
  unfold MMU.write_byte
  rw [iteSkip (by omega), iteSkip (by omega), iteSkip (by omega),
      iteSkip (by omega), iteTake (by omega)]

/-- Range resolution of `MMU::write_byte`: 0xD000–0xDFFF writes the
selected wram bank; the indexing panics when the bank is 8 or more. -/
theorem MMU.write_byte_wramsel (m : MMU) (a v : Nat)
    (h1 : 0xD000 ≤ a) (h2 : a ≤ 0xDFFF) :
    m.write_byte a v =
      (if m.selected_wram_bank < 8 then
        some { m with wram := upd2 m.wram m.selected_wram_bank (a - 0xD000) v }
      else none) := by
  unfold MMU.write_byte
  rw [iteSkip (by omega), iteSkip (by omega), iteSkip (by omega),
      iteSkip (by omega), iteSkip (by omega), iteTake (by omega)]

/-- Range resolution of `MMU::write_byte`: echo RAM 0xE000–0xFDFF. -/
theorem MMU.write_byte_echo (m : MMU) (a v : Nat)
    (h1 : 0xE000 ≤ a) (h2 : a ≤ 0xFDFF) :
    m.write_byte a v =
      some { m with
        wram := upd2 m.wram ((a - 0xE000) / 0x1000) ((a - 0xE000) % 0x1000) v } := by
  unfold MMU.write_byte
  rw [iteSkip (by omega), iteSkip (by omega), iteSkip (by omega),
      iteSkip (by omega), iteSkip (by omega), iteSkip (by omega),
      iteTake (by omega)]

/-- Range resolution of `MMU::write_byte`: high RAM 0xFF80–0xFFFE. -/
theorem MMU.write_byte_hram (m : MMU) (a v : Nat)
    (h1 : 0xFF80 ≤ a) (h2 : a ≤ 0xFFFE) :
    m.write_byte a v = some { m with hram := upd1 m.hram (a - 0xFF80) v } := by
  unfold MMU.write_byte
  rw [iteSkip (by omega), iteSkip (by omega), iteSkip (by omega),
      iteSkip (by omega), iteSkip (by omega), iteSkip (by omega),
      iteSkip (by omega), iteSkip (by omega), iteSkip (by omega),
      iteSkip (by omega), iteSkip (by omega), iteSkip (by omega),
      iteSkip (by omega), iteSkip (by omega), iteSkip (by omega),
      iteSkip (by omega), iteSkip (by omega), iteSkip (by omega),
      iteSkip (by omega), iteSkip (by omega), iteSkip (by omega),
      iteSkip (by omega), iteSkip (by omega), iteSkip (by omega),
      iteSkip (by omega), iteSkip (by omega), iteSkip (by omega),
      iteSkip (by omega), iteSkip (by omega), iteTake (by omega)]

/-- Range resolution of `MMU::write_byte`: bus writes to cartridge RAM
0xA000–0xBFFF are ignored (the arm is `{} // TODO` in the source). -/
theorem MMU.write_byte_cartram (m : MMU) (a v : Nat)
    (h1 : 0xA000 ≤ a) (h2 : a ≤ 0xBFFF) :
    m.write_byte a v = some m := by
  unfold MMU.write_byte
  rw [iteSkip (by omega), iteSkip (by omega), iteSkip (by omega),
      iteTake (by omega)]

/-- Range resolution of `MMU::write_byte`: 0xFF70 stores the value
unmasked as the selected wram bank. -/
theorem MMU.write_byte_ff70 (m : MMU) (v : Nat) :
    m.write_byte 0xFF70 v = some { m with selected_wram_bank := v } := by
  unfold MMU.write_byte
  rw [iteSkip (by omega), iteSkip (by omega), iteSkip (by omega),
      iteSkip (by omega), iteSkip (by omega), iteSkip (by omega),
      iteSkip (by omega), iteSkip (by omega), iteSkip (by omega),
      iteSkip (by omega), iteSkip (by omega), iteSkip (by omega),
      iteSkip (by omega), iteSkip (by omega), iteSkip (by omega),
      iteSkip (by omega), iteSkip (by omega), iteSkip (by omega),
      iteSkip (by omega), iteSkip (by omega), iteSkip (by omega),
      iteSkip (by omega), iteSkip (by omega), iteSkip (by omega),
      iteSkip (by omega), iteSkip (by omega), iteSkip (by omega),
      iteTake (by omega)]

/-- Range resolution of `MMU::write_byte`: the 0xFF55 DMA-trigger arm,
with no hblank DMA active. -/
theorem MMU.write_byte_ff55 (m : MMU) (v : Nat)
    (h : m.hdma_status ≠ DMAType.HDMA) :
    m.write_byte 0xFF55 v =
      (if hdmaSrc m > 0x7FF0 ∧ (hdmaSrc m < 0xA000 ∨ hdmaSrc m > 0xDFF0) then none
       else
        some { m with hdma_src := hdmaSrc m,
                      hdma_dst := ((m.hdma 2 <<< 8) ||| m.hdma 3) ||| 0x8000,
                      hdma_len := v &&& 0x7F,
                      hdma_status := if is_set v 7 then DMAType.HDMA
                                     else DMAType.GDMA }) := by
  unfold MMU.write_byte hdmaSrc
  rw [iteSkip (by omega), iteSkip (by omega), iteSkip (by omega),
      iteSkip (by omega), iteSkip (by omega), iteSkip (by omega),
      iteSkip (by omega), iteSkip (by omega), iteSkip (by omega),
      iteSkip (by omega), iteSkip (by omega), iteSkip (by omega),
      iteSkip (by omega), iteSkip (by omega), iteSkip (by omega),
      iteSkip (by omega), iteSkip (by omega), iteSkip (by omega),
      iteSkip (by omega), iteSkip (by omega), iteSkip (by omega),
      iteSkip (by omega), iteSkip (by omega), iteTake (by omega)]
  rw [if_neg h]

/- ---------------------------------------------------------------- -/
/- Concrete states used by witnesses and counterexamples             -/
/- ---------------------------------------------------------------- -/

/-- A concrete MMU state: MBC0 cartridge, boot ROM disabled, zeroed
memories, default peripherals. -/
def mmuEx : MMU :=
  { cartridge := Cartridge.mbc0 { rom := fun _ => 0, rom_len := 0x8000 },
    boot_rom := none, wram := fun _ _ => 0, hram := fun _ => 0,
    hdma := fun _ => 0, hdma_src := 0, hdma_dst := 0, hdma_len := 0,
    hdma_status := DMAType.NoDMA, selected_wram_bank := 1,
    interrupt_flags := 0, interrupt_enable := 0, joypad := Joypad.new,
    ppu := PPU.new GbMode.Classic, timer := Timer.new }

/-- A concrete MBC3 state for a cartridge whose declared ROM-size code
is 0 (two banks). -/
def mbc3Ex : Mbc3 :=
  { rom := fun _ => 0, rom_len := 0x8000, ram := fun _ => 0, ram_len := 0,
    ram_enabled := true, selected_rom_bank := 1, selected_ram_bank := 0,
    ram_bank_count := 0, rtc_selected := false, rtc_ram := fun _ => 0,
    rtc_ram_latch := fun _ => 0, rtc_zero := none }

/-- A concrete MBC1 state with four declared ROM banks. -/
def mbc1Ex : MBC1 :=
  { rom := fun _ => 0, rom_len := 0x10000, ram := fun _ => 0,
    ram_len := 0x8000, ram_enabled := true, selected_rom_bank := 1,
    selected_ram_bank := 0, ram_bank_count := 4, rom_bank_count := 4,
    banking_mode := 1, has_battery := true }

/- ---------------------------------------------------------------- -/
/- C9: RST operand validation                                        -/
/- ---------------------------------------------------------------- -/

/-- C9 counterexample: the claim says the RST validation condition
`imm8 % 8 != 0 && imm8 <= 0x38` is never true, so no input is ever
rejected.  The input 9 satisfies the condition (9 % 8 = 1 and 9 ≤ 0x38),
so the parser panics on it. -/
theorem C9_counterexample :
    parseRstOperand 9 = none ∧
    ¬(∀ imm8 : Nat, (parseRstOperand imm8).isSome = true) := by
  refine ⟨by decide, fun h => ?_⟩
  have := h 9
  simp [parseRstOperand] at this

/-- C9 (amended): the RST validation rejects (panics on) exactly the
operands that are not multiples of 8 and are at most 0x38; every
operand above 0x38 — including invalid vectors like 0x39 — is
accepted unchanged. -/
theorem C9_rst_validation (imm8 : Nat) :
    (parseRstOperand imm8 = none ↔ (imm8 % 8 ≠ 0 ∧ imm8 ≤ 0x38)) ∧
    (0x38 < imm8 → parseRstOperand imm8 = some imm8) := by
  unfold parseRstOperand
  constructor
  · split_ifs with h <;> simp [h]
  · intro hgt
    rw [if_neg (by omega)]

/-- C9 witness: 0x40 (not even a valid RST vector) is accepted. -/
theorem C9_witness : parseRstOperand 0x40 = some 0x40 :=
  (C9_rst_validation 0x40).2 (by omega)

/- ---------------------------------------------------------------- -/
/- C5: ROM-bank-select writes                                        -/
/- ---------------------------------------------------------------- -/

/-- C5 counterexample: the claim says that for every bank-controller
variant the selected ROM bank index is reduced modulo the declared ROM
bank count after a 0x2000–0x3FFF write.  In MBC3 no reduction happens:
on a cartridge with ROM-size code 0 (2 declared banks), writing 5
selects bank 5. -/
theorem C5_counterexample :
    (Mbc3.write_rom 0 mbc3Ex 0x2000 5).map Mbc3.selected_rom_bank = some 5 ∧
    rom_bank_count 0 = 2 ∧ ¬(5 < rom_bank_count 0) := by
  refine ⟨by decide, by decide, by decide⟩

/-- C5 (amended): a 0x2000–0x3FFF bank-select write normalizes a zero
argument to bank 1 and, in MBC1 only, reduces modulo the declared bank
count.  MBC1 (count nonzero, else the `%` panics): the new bank is
`((old & 0x60) | max(1, v & 0x1F)) % count`, strictly below the count,
and equal to 1 for v = 0 whenever the preserved upper bits are zero and
the count exceeds 1.  MBC3: the new bank is `v & 0x7F` normalized to 1
when zero, with no modulo reduction. -/
theorem C5_bank_select :
    (∀ (m : MBC1) (a v : Nat), 0x2000 ≤ a → a ≤ 0x3FFF →
      0 < m.rom_bank_count →
      MBC1.write_rom m a v =
        some { m with selected_rom_bank :=
          ((m.selected_rom_bank &&& 0x60) |||
            (if v &&& 0x1F = 0 then 1 else v &&& 0x1F)) % m.rom_bank_count } ∧
      ((m.selected_rom_bank &&& 0x60) |||
          (if v &&& 0x1F = 0 then 1 else v &&& 0x1F)) % m.rom_bank_count
        < m.rom_bank_count ∧
      (v = 0 → m.selected_rom_bank &&& 0x60 = 0 → 1 < m.rom_bank_count →
        ((m.selected_rom_bank &&& 0x60) |||
          (if v &&& 0x1F = 0 then 1 else v &&& 0x1F)) % m.rom_bank_count = 1)) ∧
    (∀ (now : Nat) (m : Mbc3) (a v : Nat), 0x2000 ≤ a → a ≤ 0x3FFF →
      Mbc3.write_rom now m a v =
        some { m with selected_rom_bank :=
          if v &&& 0x7F = 0 then 1 else v &&& 0x7F }) := by
  constructor
  · intro m a v ha1 ha2 hc
    refine ⟨?_, Nat.mod_lt _ hc, ?_⟩
    · unfold MBC1.write_rom
      rw [if_neg (by omega)]
      rw [if_pos (by omega)]
      rw [if_neg (by omega)]
    · intro hv h60 hgt
      subst hv
      simp only [Nat.zero_and, if_pos rfl, h60, Nat.zero_or]
      exact Nat.mod_eq_of_lt hgt
  · intro now m a v ha1 ha2
    unfold Mbc3.write_rom
    rw [iteSkip (by omega), iteTake (by omega)]

/-- C5 witness: on the concrete MBC1 with 4 declared banks, writing 0
selects bank 1; on the concrete MBC3, writing 0 selects bank 1. -/
theorem C5_witness :
    (MBC1.write_rom mbc1Ex 0x2000 0).map MBC1.selected_rom_bank = some 1 ∧
    (Mbc3.write_rom 0 mbc3Ex 0x3000 0).map Mbc3.selected_rom_bank = some 1 := by
  have h1 := (C5_bank_select.1 mbc1Ex 0x2000 0 (by omega) (by omega) (by decide)).1
  have h3 := C5_bank_select.2 0 mbc3Ex 0x3000 0 (by omega) (by omega)
  rw [h1, h3]
  exact ⟨by decide, by decide⟩

/- ---------------------------------------------------------------- -/
/- C8: MBC1 RAM-bank select (0x4000–0x5FFF write)                    -/
/- ---------------------------------------------------------------- -/

/-- C8: the claim (and the spec) say an MBC1 write to 0x4000–0x5FFF
sets the 2-bit RAM bank select to `v mod 4` without touching the low 5
bits of the selected ROM bank.  The code instead executes
`self.selected_rom_bank = value & 0x03` — the `selected_ram_bank`
field is never assigned anywhere, although `read_ram`/`write_ram` and
`get_selected_ram_bank` read it.  Evaluated at a concrete failing
input: ROM bank 1, RAM bank 0, 4 declared ROM banks, write of 2 —
the RAM bank stays 0 and the ROM bank becomes 2. -/
theorem C8_bug_eval :
    (MBC1.write_rom mbc1Ex 0x4000 2).map
        (fun m => (m.selected_ram_bank, m.selected_rom_bank)) =
      some (0, 2) := by
  decide

/- ---------------------------------------------------------------- -/
/- C10: working-RAM bank-select register 0xFF70                      -/
/- ---------------------------------------------------------------- -/

/-- C10: writing v to 0xFF70 stores v unmasked as the selected wram
bank; every subsequent access in 0xD000–0xDFFF indexes the 8-bank
array at v and is total exactly when v < 8; and v = 0 makes
0xD000–0xDFFF alias the fixed bank-0 window 0xC000–0xCFFF. -/
theorem C10_wram_bank_select (m : MMU) (v o w : Nat) (ho : o ≤ 0xFFF) :
    m.write_byte 0xFF70 v = some { m with selected_wram_bank := v } ∧
    ((({ m with selected_wram_bank := v } : MMU).read_byte (0xD000 + o)).isSome
        = true ↔ v < 8) ∧
    ((({ m with selected_wram_bank := v } : MMU).write_byte (0xD000 + o) w).isSome
        = true ↔ v < 8) ∧
    (v < 8 →
      ({ m with selected_wram_bank := v } : MMU).read_byte (0xD000 + o)
        = some (m.wram v o)) ∧
    (v = 0 →
      ({ m with selected_wram_bank := v } : MMU).read_byte (0xD000 + o)
        = ({ m with selected_wram_bank := v } : MMU).read_byte (0xC000 + o)) := by
  refine ⟨MMU.write_byte_ff70 m v, ?_, ?_, ?_, ?_⟩
  · rw [MMU.read_byte_wramsel _ _ (by omega) (by omega)]
    by_cases hv : v < 8 <;> simp [hv]
  · rw [MMU.write_byte_wramsel _ _ _ (by omega) (by omega)]
    by_cases hv : v < 8 <;> simp [hv]
  · intro hv
    rw [MMU.read_byte_wramsel _ _ (by omega) (by omega)]
    show (if v < 8 then some (m.wram v (0xD000 + o - 0xD000)) else none)
        = some (m.wram v o)
    rw [if_pos hv, Nat.add_sub_cancel_left]
  · intro hv
    subst hv
    rw [MMU.read_byte_wramsel _ _ (by omega) (by omega),
        MMU.read_byte_wram0 _ _ (by omega) (by omega)]
    show (if (0:Nat) < 8 then some (m.wram 0 (0xD000 + o - 0xD000)) else none)
        = some (m.wram 0 (0xC000 + o - 0xC000))
    rw [if_pos (by omega : (0:Nat) < 8), Nat.add_sub_cancel_left,
        Nat.add_sub_cancel_left]

/-- C10 witness: at the concrete MMU, bank value 2 at offset 5. -/
theorem C10_witness :
    (mmuEx.write_byte 0xFF70 2 = some { mmuEx with selected_wram_bank := 2 }) ∧
    ((({ mmuEx with selected_wram_bank := 2 } : MMU).read_byte (0xD000 + 5)).isSome
        = true ↔ 2 < 8) :=
  ⟨(C10_wram_bank_select mmuEx 2 5 9 (by omega)).1,
   (C10_wram_bank_select mmuEx 2 5 9 (by omega)).2.1⟩

/- ---------------------------------------------------------------- -/
/- C3: echo RAM                                                      -/
/- ---------------------------------------------------------------- -/

/-- Concrete MMU whose wram bank 0 holds 10 everywhere and bank 1
holds 20 everywhere. -/
def mmuC3 : MMU :=
  { mmuEx with wram := fun b _ => if b = 0 then 10 else if b = 1 then 20 else 0 }

/-- C3 counterexample: the claim says every echo access 0xE000–0xFDFF
behaves like the corresponding access to wram bank 0.  At 0xF000 the
code reads `wram[(0xF000 - 0xE000) / 0x1000] = wram[1]`: with bank 0
holding 10 and bank 1 holding 20 the read returns 20, and a write of 99
to 0xF000 lands in bank 1, leaving bank 0 untouched. -/
theorem C3_counterexample :
    mmuC3.read_byte 0xF000 = some 20 ∧
    mmuC3.wram 0 0 = 10 ∧ (20 : Nat) ≠ 10 ∧
    (mmuC3.write_byte 0xF000 99).map (fun m2 => (m2.wram 0 0, m2.wram 1 0))
      = some (10, 99) := by
  refine ⟨by decide, by decide, by decide, by decide⟩

/-- C3 (amended): an echo access at a ∈ 0xE000–0xFDFF reads/writes
wram bank `(a - 0xE000) / 0x1000` at offset `(a - 0xE000) % 0x1000` —
bank 0 for a ≤ 0xEFFF but bank 1 (not bank 0) for a ≥ 0xF000 — and is
independent of the selected wram bank in every machine state. -/
theorem C3_echo_ram (m : MMU) (a v : Nat)
    (h1 : 0xE000 ≤ a) (h2 : a ≤ 0xFDFF) :
    m.read_byte a =
      some (m.wram ((a - 0xE000) / 0x1000) ((a - 0xE000) % 0x1000)) ∧
    (a ≤ 0xEFFF → (a - 0xE000) / 0x1000 = 0) ∧
    (0xF000 ≤ a → (a - 0xE000) / 0x1000 = 1) ∧
    (∀ bank : Nat,
      ({ m with selected_wram_bank := bank } : MMU).read_byte a
        = m.read_byte a) ∧
    m.write_byte a v =
      some { m with wram := upd2 m.wram ((a - 0xE000) / 0x1000) ((a - 0xE000) % 0x1000) v } := by
  refine ⟨MMU.read_byte_echo m a h1 h2, by omega, by omega, ?_,
          MMU.write_byte_echo m a v h1 h2⟩
  intro bank
  rw [MMU.read_byte_echo _ a h1 h2, MMU.read_byte_echo m a h1 h2]

/-- C3 witness: concrete echo access at 0xE010. -/
theorem C3_witness :
    mmuC3.read_byte 0xE010 =
      some (mmuC3.wram ((0xE010 - 0xE000) / 0x1000) ((0xE010 - 0xE000) % 0x1000)) :=
  (C3_echo_ram mmuC3 0xE010 0 (by omega) (by omega)).1

/- ---------------------------------------------------------------- -/
/- C4: write-then-read round trip                                    -/
/- ---------------------------------------------------------------- -/

/-- Concrete MMU with an MBC1 cartridge whose (enabled) RAM holds 7
everywhere. -/
def mmuC4 : MMU :=
  { mmuEx with cartridge := Cartridge.mbc1 { mbc1Ex with ram := fun _ => 7 } }

/-- C4 counterexample: the claim includes enabled cartridge RAM in the
write-then-read round trip, but the bus write arm for 0xA000–0xBFFF is
a no-op (`{} // TODO`), so writing 42 and reading back yields the old
RAM byte 7. -/
theorem C4_counterexample :
    (mmuC4.write_byte 0xA000 42).bind (fun m2 => m2.read_byte 0xA000)
      = some 7 ∧
    (7 : Nat) ≠ 42 := by
  refine ⟨by decide, by decide⟩

/-- C4 (amended): writing then reading the same address round-trips
for working RAM 0xC000–0xCFFF, for 0xD000–0xDFFF when the selected
wram bank is in range, and for high RAM 0xFF80–0xFFFE; bus writes to
cartridge RAM 0xA000–0xBFFF are ignored entirely (the MMU state is
unchanged), so the cartridge-RAM round trip returns the pre-existing
RAM byte instead of the written value. -/
theorem C4_roundtrip (m : MMU) (a v : Nat) :
    ((0xC000 ≤ a ∧ a ≤ 0xCFFF) ∨
     (0xD000 ≤ a ∧ a ≤ 0xDFFF ∧ m.selected_wram_bank < 8) ∨
     (0xFF80 ≤ a ∧ a ≤ 0xFFFE) →
      (m.write_byte a v).bind (fun m2 => m2.read_byte a) = some v) ∧
    (0xA000 ≤ a → a ≤ 0xBFFF → m.write_byte a v = some m) := by
  constructor
  · intro h
    rcases h with ⟨hl, hr⟩ | ⟨hl, hr, hbank⟩ | ⟨hl, hr⟩
    · rw [MMU.write_byte_wram0 _ _ _ hl hr, Option.some_bind,
          MMU.read_byte_wram0 _ _ hl hr]
      simp [upd2]
    · rw [MMU.write_byte_wramsel _ _ _ hl hr, if_pos hbank, Option.some_bind,
          MMU.read_byte_wramsel _ _ hl hr]
      show (if m.selected_wram_bank < 8 then
              some ((upd2 m.wram m.selected_wram_bank (a - 0xD000) v)
                m.selected_wram_bank (a - 0xD000))
            else none) = some v
      rw [if_pos hbank]
      simp [upd2]
    · rw [MMU.write_byte_hram _ _ _ hl hr, Option.some_bind,
          MMU.read_byte_hram _ _ hl hr]
      simp [upd1]
  · intro hl hr
    exact MMU.write_byte_cartram m a v hl hr

/-- C4 witness: concrete round trip through working RAM at 0xC123. -/
theorem C4_witness :
    (mmuEx.write_byte 0xC123 77).bind (fun m2 => m2.read_byte 0xC123)
      = some 77 :=
  (C4_roundtrip mmuEx 0xC123 77).1 (Or.inl ⟨by omega, by omega⟩)

/- ---------------------------------------------------------------- -/
/- C6: HDMA trigger write (0xFF55)                                   -/
/- ---------------------------------------------------------------- -/

/-- Concrete MMU whose HDMA source registers give src = 0xA000 (inside
the claim's disallowed window). -/
def mmuC6 : MMU := { mmuEx with hdma := fun i => if i = 0 then 0xA0 else 0 }

/-- Concrete MMU whose HDMA source registers give src = 0xE000 (outside
the claim's disallowed window). -/
def mmuC6b : MMU := { mmuEx with hdma := fun i => if i = 0 then 0xE0 else 0 }

/-- C6 counterexample: the claim says the 0xFF55 write panics iff the
source is in 0x8000–0xDFF0.  src = 0xA000 lies in that window yet the
write is accepted, and src = 0xE000 lies outside it yet the write
panics. -/
theorem C6_counterexample :
    (mmuC6.write_byte 0xFF55 0x10).isSome = true ∧
    hdmaSrc mmuC6 = 0xA000 ∧
    (0x8000 ≤ hdmaSrc mmuC6 ∧ hdmaSrc mmuC6 ≤ 0xDFF0) ∧
    (mmuC6b.write_byte 0xFF55 0x10).isSome = false ∧
    hdmaSrc mmuC6b = 0xE000 ∧
    ¬(0x8000 ≤ hdmaSrc mmuC6b ∧ hdmaSrc mmuC6b ≤ 0xDFF0) := by
  refine ⟨by decide, by decide, by decide, by decide, by decide, by decide⟩

/-- C6 (amended): with no hblank DMA active, the 0xFF55 write is a
fatal configuration error exactly when the assembled source address
satisfies `src > 0x7FF0 && (src < 0xA000 || src > 0xDFF0)` — i.e. it
lies in 0x7FF1–0x9FFF or above 0xDFF0 — and is accepted (armed or
performed) for every other source, including the whole 0xA000–0xDFF0
window the claim calls disallowed. -/
theorem C6_dma_guard (m : MMU) (v : Nat) (h : m.hdma_status ≠ DMAType.HDMA) :
    (m.write_byte 0xFF55 v = none ↔
      (0x7FF0 < hdmaSrc m ∧ (hdmaSrc m < 0xA000 ∨ 0xDFF0 < hdmaSrc m))) := by
  rw [MMU.write_byte_ff55 m v h]
  by_cases hc : hdmaSrc m > 0x7FF0 ∧ (hdmaSrc m < 0xA000 ∨ hdmaSrc m > 0xDFF0)
  · simp [hc]
  · simp [hc]

/-- C6 witness: at the concrete state with src = 0xA000 the write is
not a panic. -/
theorem C6_witness : ¬(mmuC6.write_byte 0xFF55 0x10 = none) := by
  rw [C6_dma_guard mmuC6 0x10 (by decide)]
  decide

/- ---------------------------------------------------------------- -/
/- C2: PPU mode state machine                                        -/
/- ---------------------------------------------------------------- -/

/-- The mode the code assigns from the dot counter on visible lines:
`dots <= 80` mode 2, `dots <= 252` mode 3, otherwise mode 0. -/
def modeForDots (d : Nat) : Nat :=
  if d ≤ 80 then 2 else if d ≤ 252 then 3 else 0

/-- The mode map asserted by the claim (dots 0–79 mode 2, 80–251
mode 3, 252–455 mode 0), written from the claim's words for
comparison. -/
def modeForDotsClaimed (d : Nat) : Nat :=
  if d ≤ 79 then 2 else if d ≤ 251 then 3 else 0

theorem change_mode_mode (p : PPU) (k : Nat) : (p.change_mode k).mode = k := by
  unfold PPU.change_mode PPU.render_scanline
  dsimp only
  split_ifs <;> rfl

theorem change_mode_dots (p : PPU) (k : Nat) : (p.change_mode k).dots = p.dots := by
  unfold PPU.change_mode PPU.render_scanline
  dsimp only
  split_ifs <;> rfl

theorem change_mode_ly (p : PPU) (k : Nat) : (p.change_mode k).ly = p.ly := by
  unfold PPU.change_mode PPU.render_scanline
  dsimp only
  split_ifs <;> rfl

theorem render_scanline_interrupt (p : PPU) :
    p.render_scanline.interrupt = p.interrupt := by
  unfold PPU.render_scanline
  split_ifs <;> rfl

theorem change_mode_one_bit0 (p : PPU) :
    Nat.testBit (p.change_mode 1).interrupt 0 = true := by
  unfold PPU.change_mode
  dsimp only
  split_ifs <;> simp_all [render_scanline_interrupt, bitv, Nat.testBit_lor]

theorem change_mode_bit0_mono (p : PPU) (k : Nat)
    (h : Nat.testBit p.interrupt 0 = true) :
    Nat.testBit (p.change_mode k).interrupt 0 = true := by
  unfold PPU.change_mode
  dsimp only
  split_ifs <;> simp_all [render_scanline_interrupt, bitv, Nat.testBit_lor]

theorem check_lyc_ly (p : PPU) : p.check_lyc_interrupt.ly = p.ly := by
  unfold PPU.check_lyc_interrupt
  split_ifs <;> rfl

theorem check_lyc_mode (p : PPU) : p.check_lyc_interrupt.mode = p.mode := by
  unfold PPU.check_lyc_interrupt
  split_ifs <;> rfl

theorem check_lyc_dots (p : PPU) : p.check_lyc_interrupt.dots = p.dots := by
  unfold PPU.check_lyc_interrupt
  split_ifs <;> rfl

/-- After the mode-update half of the loop body, the mode on a visible
line is exactly the code's dot classification. -/
theorem stepChunkMode_classified (q : PPU) :
    q.stepChunkMode.ly < 144 →
    q.stepChunkMode.mode = modeForDots q.stepChunkMode.dots := by
  unfold PPU.stepChunkMode modeForDots
  split_ifs with h1 h2 h3 h4 h5 h6 h7 <;>
    intro hly <;>
    simp_all [change_mode_mode, change_mode_dots, change_mode_ly] <;>
    omega

theorem stepChunkMode_ly (q : PPU) : q.stepChunkMode.ly = q.ly := by
  unfold PPU.stepChunkMode
  split_ifs <;> simp [change_mode_ly]

theorem stepChunkMode_mode_of_vblank (q : PPU) (h : 144 ≤ q.ly) :
    q.stepChunkMode = q := by
  unfold PPU.stepChunkMode
  rw [if_neg (by omega)]

/-- Scanline advance: when the accumulated dot counter reaches 456 the
line increments, wrapping at 154. -/
theorem stepChunkDots_wrap_ly (p : PPU) (k : Nat)
    (h : 456 ≤ (p.dots + k) % 65536) :
    (p.stepChunkDots k).ly = (p.ly + 1) % 154 := by
  unfold PPU.stepChunkDots
  dsimp only
  rw [if_pos h]
  split_ifs with h2
  · rw [change_mode_ly, check_lyc_ly]
  · rw [check_lyc_ly]

theorem stepChunkDots_nowrap (p : PPU) (k : Nat)
    (h : (p.dots + k) % 65536 < 456) :
    (p.stepChunkDots k).ly = p.ly ∧ (p.stepChunkDots k).mode = p.mode := by
  unfold PPU.stepChunkDots
  dsimp only
  rw [if_neg (by omega)]
  exact ⟨rfl, rfl⟩

/-- Vblank entry: when the line increment lands at or above 144 with
the mode not already 1, the mode is forced to 1 and the vblank bit
(bit 0) of the interrupt line is raised. -/
theorem stepChunkDots_vblank (p : PPU) (k : Nat)
    (h : 456 ≤ (p.dots + k) % 65536)
    (h144 : (p.ly + 1) % 154 = 144) (hm : p.mode ≠ 1) :
    (p.stepChunkDots k).mode = 1 ∧
    Nat.testBit (p.stepChunkDots k).interrupt 0 = true := by
  unfold PPU.stepChunkDots
  dsimp only
  rw [if_pos h]
  rw [if_pos (by rw [check_lyc_ly, check_lyc_mode]; simp only [h144]; omega)]
  exact ⟨change_mode_mode _ _, change_mode_one_bit0 _⟩

/-- Unfolding equation for the `PPU::step` loop. -/
theorem stepLoop_eq (p : PPU) (c : Nat) :
    PPU.stepLoop p c =
      if c = 0 then p
      else PPU.stepLoop (p.stepChunk (min c 80)) (c - min c 80) := by
  rw [PPU.stepLoop]

/-- Every run of the loop ending on a visible line leaves the mode
equal to the code's dot classification. -/
theorem stepLoop_classified (c : Nat) : ∀ p : PPU, c ≠ 0 →
    (PPU.stepLoop p c).ly < 144 →
    (PPU.stepLoop p c).mode = modeForDots (PPU.stepLoop p c).dots := by
  induction c using Nat.strong_induction_on with
  | _ c ih =>
    intro p hc
    rw [stepLoop_eq, if_neg hc]
    by_cases h2 : c - min c 80 = 0
    · rw [h2, stepLoop_eq, if_pos rfl]
      exact stepChunkMode_classified _
    · exact ih (c - min c 80) (by omega) _ h2

/-- `PPU::step` for a chunk of at most 80 cycles is a single loop
iteration. -/
theorem step_eval_le80 (p : PPU) (c : Nat)
    (h1 : 0 < c) (h2 : c ≤ 80) (hl : p.lcd_on = true) :
    p.step c = PPU.stepChunk { p with hblank := false } c := by
  unfold PPU.step
  rw [hl]
  rw [if_neg (by simp), stepLoop_eq, if_neg (by omega),
      show min c 80 = c by omega, show c - c = 0 by omega,
      stepLoop_eq, if_pos rfl]

/-- Concrete powered-on PPU at line 0, dot 0, mode 0. -/
def ppuC2on : PPU := { PPU.new GbMode.Classic with lcd_on := true }

/-- C2 counterexample: the claim says dot 80 lies in mode 3
(mode 2 only for dots 0–79).  The code's comparison is `dots <= 80`,
so after stepping 80 dots from (line 0, dot 0) the PPU sits at dot 80
in mode 2, not mode 3. -/
theorem C2_counterexample :
    ppuC2on.lcd_on = true ∧
    (ppuC2on.step 80).ly < 144 ∧
    (ppuC2on.step 80).dots = 80 ∧
    (ppuC2on.step 80).mode = 2 ∧
    modeForDotsClaimed 80 = 3 ∧ (2 : Nat) ≠ 3 := by
  have h := step_eval_le80 ppuC2on 80 (by omega) (by omega) (by decide)
  refine ⟨by decide, ?_, ?_, ?_, by decide, by decide⟩ <;> rw [h] <;> decide

/-- C2 (amended): with the display on, the mode after `step(cycles)`
(cycles > 0) on a visible line is the dot classification the code
uses — mode 2 for dots 0–80, mode 3 for dots 81–252, mode 0 for dots
253–455 (boundaries at `dots <= 80` / `dots <= 252`, one dot later
than claimed); per loop iteration, when the accumulated dot counter
reaches 456 it is reduced by 456 and the line increments wrapping at
154 (otherwise the line is unchanged), and when the incremented line
is 144 and the mode is not already 1, the mode is forced to 1 and the
vblank interrupt bit (bit 0) is raised unconditionally. -/
theorem C2_mode_machine :
    (∀ (p : PPU) (cycles : Nat), p.lcd_on = true → 0 < cycles →
      (p.step cycles).ly < 144 →
      (p.step cycles).mode = modeForDots (p.step cycles).dots) ∧
    (∀ (p : PPU) (k : Nat), 456 ≤ (p.dots + k) % 65536 →
      (p.stepChunk k).ly = (p.ly + 1) % 154) ∧
    (∀ (p : PPU) (k : Nat), (p.dots + k) % 65536 < 456 →
      (p.stepChunk k).ly = p.ly) ∧
    (∀ (p : PPU) (k : Nat), 456 ≤ (p.dots + k) % 65536 →
      (p.ly + 1) % 154 = 144 → p.mode ≠ 1 →
      (p.stepChunk k).mode = 1 ∧
      Nat.testBit (p.stepChunk k).interrupt 0 = true) := by
  refine ⟨?_, ?_, ?_, ?_⟩
  · intro p cycles hl hcy
    unfold PPU.step
    rw [hl, if_neg (by simp)]
    exact stepLoop_classified cycles _ (by omega)
  · intro p k h
    unfold PPU.stepChunk
    rw [stepChunkMode_ly, stepChunkDots_wrap_ly p k h]
  · intro p k h
    unfold PPU.stepChunk
    rw [stepChunkMode_ly]
    exact (stepChunkDots_nowrap p k h).1
  · intro p k h h144 hm
    unfold PPU.stepChunk
    have hly : (p.stepChunkDots k).ly = 144 := by
      rw [stepChunkDots_wrap_ly p k h, h144]
    rw [stepChunkMode_mode_of_vblank _ (by omega)]
    exact stepChunkDots_vblank p k h h144 hm

/-- C2 witness: the concrete powered-on PPU stepped by 80 dots ends in
the mode its dot counter classifies. -/
theorem C2_witness :
    (ppuC2on.step 80).mode = modeForDots (ppuC2on.step 80).dots := by
  refine C2_mode_machine.1 ppuC2on 80 (by decide) (by omega) ?_
  rw [step_eval_le80 ppuC2on 80 (by omega) (by omega) (by decide)]
  decide

/- ---------------------------------------------------------------- -/
/- C1: timer interrupt service in the step dispatch                  -/
/- ---------------------------------------------------------------- -/

theorem clear_bit2_false (x : Nat) : Nat.testBit (x &&& 0xFB) 2 = false := by
  rw [Nat.testBit_land]
  simp [show Nat.testBit 0xFB 2 = false from by decide]

/-- The post-service CPU state: program counter at the vector, stack
pointer decremented, MMU advanced 12 cycles past the pushed word,
global enable cleared, halt cleared, call stack extended. -/
def servicedCPU (cpu : CPU) (next_pc vector : Nat) (m3 : MMU) : CPU :=
  { registers := { cpu.registers with pc := vector, sp := (cpu.registers.sp + 65534) % 65536 },
    mmu := m3.step 12,
    call_stack := cpu.call_stack ++ [(next_pc, vector, next_pc)],
    ime := false,
    is_halted := false,
    gb_mode := cpu.gb_mode }

/-- C1: when the global interrupt enable is set, the timer interrupt
(bit 2) is pending and enabled after the instruction's MMU advance, and
no higher-priority pair (vblank bit 0, LCD-stat bit 1) is
pending-and-enabled, the step dispatcher services the timer interrupt:
it clears pending bit 2 (first conjunct), pushes the pre-interrupt
program counter (next_pc) at sp - 2 through the bus, jumps to 0x0050,
clears the global enable and the halt flag, advances the MMU by the 12
dispatch cycles, and returns exactly 12 cycles more than the
instruction's own cost. -/
theorem C1_timer_interrupt_service (cpu : CPU) (next_pc cycles : Nat)
    (hime : cpu.ime = true)
    (h0 : (is_set cpu.mmu.interrupt_enable 0 && is_set cpu.mmu.interrupt_flags 0) = false)
    (h1 : (is_set cpu.mmu.interrupt_enable 1 && is_set cpu.mmu.interrupt_flags 1) = false)
    (h2e : is_set cpu.mmu.interrupt_enable 2 = true)
    (h2f : is_set cpu.mmu.interrupt_flags 2 = true) :
    Nat.testBit ({ cpu.mmu with interrupt_flags := cpu.mmu.interrupt_flags &&& 0xFB } : MMU).interrupt_flags 2 = false ∧
    CPU.step_post cpu next_pc cycles =
      ((({ cpu.mmu with interrupt_flags := cpu.mmu.interrupt_flags &&& 0xFB } : MMU).write_word
          ((cpu.registers.sp + 65534) % 65536) next_pc).map
        (fun m3 => (servicedCPU cpu next_pc 0x50 m3, cycles + 12))) := by
  have hint : cpu.mmu.has_interrupt = true := MMU.has_interrupt_of_pair h2e h2f
  refine ⟨clear_bit2_false _, ?_⟩
  simp only [CPU.step_post, CPU.interrupt, CPU.push, servicedCPU, hint, hime, h0, h1,
    h2e, h2f, Bool.and_self, if_true, if_false, Bool.not_false, Option.map_map]
  rfl


theorem interrupt_is_halted {c : CPU} {a : Nat} {r : CPU}
    (h : CPU.interrupt c a = some r) : r.is_halted = c.is_halted := by
  unfold CPU.interrupt CPU.push at h
  dsimp only at h
  rw [Option.map_map] at h
  revert h
  cases MMU.write_word c.mmu ((c.registers.sp + 65534) % 65536) c.registers.pc with
  | none => intro h; exact Option.noConfusion h
  | some m =>
    intro h
    injection h with h2
    rw [← h2]
    dsimp only [Function.comp]

/-- C7: for a halted processor, after the MMU advance: any
pending-and-enabled interrupt bit clears the halted flag and commits
next_pc regardless of the global-enable flag; the interrupt is
additionally serviced only when the global enable is set (with it
clear, the state is otherwise untouched — no push, no vector jump, no
extra cycles); and with no pending-and-enabled bit the processor stays
halted with the program counter unmoved. -/
theorem C7_halt_wake (cpu : CPU) (next_pc cycles : Nat)
    (hh : cpu.is_halted = true) :
    (cpu.mmu.has_interrupt = false →
      CPU.step_post cpu next_pc cycles = some (cpu, cycles)) ∧
    (cpu.mmu.has_interrupt = true →
      ∀ r, CPU.step_post cpu next_pc cycles = some r → r.1.is_halted = false) ∧
    (cpu.mmu.has_interrupt = true → cpu.ime = false →
      CPU.step_post cpu next_pc cycles =
        some ({ cpu with is_halted := false, registers := { cpu.registers with pc := next_pc } }, cycles)) ∧
    (cpu.mmu.has_interrupt = true → cpu.ime = true →
      (is_set cpu.mmu.interrupt_enable 0 && is_set cpu.mmu.interrupt_flags 0) = false →
      (is_set cpu.mmu.interrupt_enable 1 && is_set cpu.mmu.interrupt_flags 1) = false →
      (is_set cpu.mmu.interrupt_enable 2 && is_set cpu.mmu.interrupt_flags 2) = false →
      CPU.step_post cpu next_pc cycles =
        some ({ cpu with is_halted := false, registers := { cpu.registers with pc := next_pc } }, cycles)) := by
  refine ⟨?_, ?_, ?_, ?_⟩
  · intro h
    have hz := MMU.land_zero_of_not_has_interrupt h
    have c0 := is_set_pair_false hz 0
    have c1 := is_set_pair_false hz 1
    have c2 := is_set_pair_false hz 2
    unfold CPU.step_post
    dsimp only
    have e1 : (if cpu.mmu.has_interrupt = true then
        ({ cpu with is_halted := false } : CPU) else cpu) = cpu :=
      if_neg (by simp [h])
    rw [e1]
    have e2 : (if (!cpu.is_halted) = true then
        ({ registers := { a := cpu.registers.a, b := cpu.registers.b, c := cpu.registers.c, d := cpu.registers.d, e := cpu.registers.e, f := cpu.registers.f, h := cpu.registers.h, l := cpu.registers.l, sp := cpu.registers.sp, pc := next_pc }, mmu := cpu.mmu, call_stack := cpu.call_stack, ime := cpu.ime, is_halted := cpu.is_halted, gb_mode := cpu.gb_mode } : CPU)
        else cpu) = cpu :=
      if_neg (by simp [hh])
    rw [e2]
    rcases Bool.eq_false_or_eq_true cpu.ime with him | him
    · rw [if_pos him, if_neg (by simp [c0]), if_neg (by simp [c1]),
          if_neg (by simp [c2])]
    · rw [if_neg (by simp [him])]
  · intro h r hr
    unfold CPU.step_post at hr
    dsimp only at hr
    rw [if_pos h] at hr
    rw [if_pos (show (!(({ cpu with is_halted := false } : CPU).is_halted)) = true
      from rfl)] at hr
    split at hr
    · split at hr
      · rcases Option.map_eq_some'.mp hr with ⟨c', hc', hcr⟩
        rw [← hcr]
        exact interrupt_is_halted hc'
      · split at hr
        · rcases Option.map_eq_some'.mp hr with ⟨c', hc', hcr⟩
          rw [← hcr]
          exact interrupt_is_halted hc'
        · split at hr
          · rcases Option.map_eq_some'.mp hr with ⟨c', hc', hcr⟩
            rw [← hcr]
            exact interrupt_is_halted hc'
          · injection hr with h2
            rw [← h2]
    · injection hr with h2
      rw [← h2]
  · intro h him
    unfold CPU.step_post
    dsimp only
    rw [if_pos h]
    rw [if_pos (show (!(({ cpu with is_halted := false } : CPU).is_halted)) = true
      from rfl)]
    rw [if_neg (by simp [him])]
  · intro h him d0 d1 d2
    unfold CPU.step_post
    dsimp only
    rw [if_pos h]
    rw [if_pos (show (!(({ cpu with is_halted := false } : CPU).is_halted)) = true
      from rfl)]
    rw [if_pos him, if_neg (by simp [d0]), if_neg (by simp [d1]),
        if_neg (by simp [d2])]

/-- Concrete CPU: timer interrupt pending and enabled (bit 2), ime on,
stack pointer in high RAM. -/
def regsC1 : Registers :=
  { a := 0, b := 0, c := 0, d := 0, e := 0,
    f := { zero := false, subtract := false, half_carry := false, carry := false },
    h := 0, l := 0, sp := 0xFF90, pc := 0x100 }

def cpuC1 : CPU :=
  { registers := regsC1,
    mmu := { mmuEx with interrupt_flags := 4, interrupt_enable := 4 },
    call_stack := [], ime := true, is_halted := false, gb_mode := GbMode.Classic }

/-- C1 witness: at the concrete state, after an 8-cycle instruction at
next_pc 0x103 the dispatcher lands at 0x0050 with sp decremented by 2,
ime off, and 8 + 12 = 20 cycles returned. -/
theorem C1_witness :
    (CPU.step_post cpuC1 0x103 8).map
        (fun r => (r.1.registers.pc, r.1.registers.sp, r.1.ime, r.1.is_halted, r.2))
      = some (0x50, 0xFF8E, false, false, 20) := by
  rw [(C1_timer_interrupt_service cpuC1 0x103 8 (by decide) (by decide) (by decide)
      (by decide) (by decide)).2]
  decide

/-- Concrete halted CPU: timer interrupt pending and enabled but ime
off. -/
def cpuC7 : CPU := { cpuC1 with is_halted := true, ime := false }

/-- C7 witness: the concrete halted CPU with a pending-enabled
interrupt and ime off exits the halt, commits next_pc, and services
nothing. -/
theorem C7_witness :
    CPU.step_post cpuC7 0x101 4 =
      some ({ cpuC7 with is_halted := false, registers := { cpuC7.registers with pc := 0x101 } }, 4) :=
  (C7_halt_wake cpuC7 0x101 4 (by decide)).2.2.1 (by decide) (by decide)
